import Mathlib

/-!
# Verification of `create-pr-from-jira` (ghpr)

A shallow embedding of the Go sources of the `create-pr-from-jira`
repository.  The repository contains two near-duplicate entry points:

* the entry point that assembles a draft pull request, discovers the
  default branch dynamically via `git symbolic-ref`, brackets the JIRA
  issue key into the PR title and prints the created PR's URL
  (modelled below with the suffix `V2`), and
* the older entry point at `src/cmd/cli/pr/main.go`, whose `-base` flag
  defaults to `"main"`, whose PR title is the bare JIRA summary, whose
  PR body carries a trailing period, and which prints no PR URL
  (modelled below with the suffix `V1`).

Strings are modelled as `List Char` (`Str`).  Go's `strings.Split` with
a one-character separator is `goSplit`, `strings.TrimSuffix` is
`goTrimSuffix`, `strings.TrimSpace` is `goTrimSpace`.  Subprocess and
HTTP results are supplied by a `World` record; each run function
returns the process outcome together with the ordered list of external
events (git subprocesses spawned, HTTP requests issued).
-/

/-- Strings are modelled as lists of characters. -/
abbrev Str := List Char

/-- Decidable equality for `Except`, for evaluating the models on
concrete inputs. -/
instance {ε α : Type} [DecidableEq ε] [DecidableEq α] : DecidableEq (Except ε α) :=
  fun x y =>
    match x, y with
    | Except.ok a, Except.ok b =>
      if h : a = b then isTrue (by rw [h]) else isFalse (fun hh => by cases hh; exact h rfl)
    | Except.error a, Except.error b =>
      if h : a = b then isTrue (by rw [h]) else isFalse (fun hh => by cases hh; exact h rfl)
    | Except.ok _, Except.error _ => isFalse (fun hh => by cases hh)
    | Except.error _, Except.ok _ => isFalse (fun hh => by cases hh)

/-- Embed a Lean string literal into the `Str` model. -/
def str (s : String) : Str := s.data

/-- Go `strings.Split(s, sep)` for a one-character separator `sep`:
splits around every occurrence of `sep`; the empty string yields `[""]`.
The result is always non-empty. -/
def goSplit (sep : Char) : Str → List Str
  | [] => [[]]
  | c :: rest =>
    match goSplit sep rest with
    | [] => [[c]]
    | s :: ss => if c = sep then [] :: s :: ss else (c :: s) :: ss

/-- Go `strings.HasSuffix`. -/
def strEndsWith (s suffix : Str) : Bool :=
  List.isPrefixOf suffix.reverse s.reverse

/-- Go `strings.TrimSuffix(s, suffix)`: removes `suffix` once if present. -/
def goTrimSuffix (s suffix : Str) : Str :=
  if strEndsWith s suffix then s.take (s.length - suffix.length) else s

/-- The whitespace characters trimmed by Go `strings.TrimSpace`
(restricted to the ASCII whitespace relevant to git output). -/
def goIsSpace (c : Char) : Bool :=
  c = ' ' || c = '\n' || c = '\t' || c = '\r'

/-- Go `strings.TrimSpace` (over the `goIsSpace` character class). -/
def goTrimSpace (s : Str) : Str :=
  ((s.dropWhile goIsSpace).reverse.dropWhile goIsSpace).reverse

/-- Decimal rendering of a natural number, used to model the numeric part
of Go's `http.Response.Status` (the reason phrase is not modelled). -/
def natToStr (n : Nat) : Str := Nat.toDigits 10 n

/-! ## The remote-URL parser

`getGitHubRepoDetails` in both Go files runs
`git config --get remote.origin.url`, trims the output and parses it.
The parsing step (lines 50-72 of the draft entry point, identical in the
older one) is modelled by `parseRemoteURL` over the already-trimmed URL. -/

/-- The pure parsing core of Go `getGitHubRepoDetails`:

```go
url := strings.TrimSpace(string(output))
var owner, repo string
if strings.HasPrefix(url, "https://") {
    parts := strings.Split(strings.TrimSuffix(url, ".git"), "/")
    if len(parts) >= 2 {
        owner = parts[len(parts)-2]
        repo = parts[len(parts)-1]
    }
} else if strings.HasPrefix(url, "git@") {
    parts := strings.Split(strings.TrimSuffix(url, ".git"), ":")
    if len(parts) == 2 {
        subParts := strings.Split(parts[1], "/")
        if len(subParts) == 2 {
            owner = subParts[0]
            repo = subParts[1]
        }
    }
}
if owner == "" || repo == "" {
    return nil, nil, fmt.Errorf("could not parse owner and repo from URL: %s", url)
}
return &owner, &repo, nil
```

The argument is the trimmed URL; Go's zero-value `""` for unassigned
`owner`/`repo` is the pair `([], [])`.  `parseOwnerRepo` computes the
`owner, repo` locals; `parseRemoteURL` adds the final emptiness check. -/
def parseOwnerRepo (url : Str) : Str × Str :=
  if List.isPrefixOf (str "https://") url then
    let parts := goSplit '/' (goTrimSuffix url (str ".git"))
    if 2 ≤ parts.length then
      (parts.getD (parts.length - 2) [], parts.getD (parts.length - 1) [])
    else ([], [])
  else if List.isPrefixOf (str "git@") url then
    let parts := goSplit ':' (goTrimSuffix url (str ".git"))
    if parts.length = 2 then
      let sub := goSplit '/' (parts.getD 1 [])
      if sub.length = 2 then (sub.getD 0 [], sub.getD 1 []) else ([], [])
    else ([], [])
  else ([], [])

/-- The result of Go `getGitHubRepoDetails` on a trimmed URL: a
`ParseError` naming the URL when `owner` or `repo` stayed empty,
otherwise the pair. -/
def parseRemoteURL (url : Str) : Except Str (Str × Str) :=
  if (parseOwnerRepo url).1 = [] ∨ (parseOwnerRepo url).2 = [] then
    Except.error (str "could not parse owner and repo from URL: " ++ url)
  else
    Except.ok (parseOwnerRepo url)

/-- Go `getGitHubRepoDetails`, given the result of the
`git config --get remote.origin.url` subprocess (`.error e` models a
non-zero exit whose error renders as `e`). -/
def getGitHubRepoDetails (res : Except Str Str) : Except Str (Str × Str) :=
  match res with
  | Except.error e => Except.error (str "failed to fetch remote origin URL: " ++ e)
  | Except.ok output => parseRemoteURL (goTrimSpace output)

/-- Go `getCurrentBranch`, given the result of
`git rev-parse --abbrev-ref HEAD`. -/
def getCurrentBranch (res : Except Str Str) : Except Str Str :=
  match res with
  | Except.error e => Except.error (str "failed to get current branch: " ++ e)
  | Except.ok output => Except.ok (goTrimSpace output)

/-- The parsing step of Go `getDefaultBranch` (draft entry point only):

```go
parts := strings.Split(strings.TrimSpace(string(output)), "/")
if len(parts) > 0 {
    return &parts[len(parts)-1], nil
}
return nil, fmt.Errorf("could not parse default branch from output: %s", string(output))
```
-/
def getDefaultBranchParse (output : Str) : Except Str Str :=
  let parts := goSplit '/' (goTrimSpace output)
  if 0 < parts.length then
    Except.ok (parts.getD (parts.length - 1) [])
  else
    Except.error (str "could not parse default branch from output: " ++ output)

/-- Go `getDefaultBranch`, given the result of
`git symbolic-ref refs/remotes/origin/HEAD`. -/
def getDefaultBranch (res : Except Str Str) : Except Str Str :=
  match res with
  | Except.error e => Except.error (str "failed to get default branch: " ++ e)
  | Except.ok output => getDefaultBranchParse output

/-- Go `getJiraIssueTitle` after the HTTP round trip: `status` is the
response status code; `summary` is the result of reading the body and
JSON-decoding `fields.summary` (`.error e` models an `io.ReadAll` or
`json.Unmarshal` failure).  The numeric status stands in for Go's
`resp.Status` string in the error message. -/
def getJiraIssueTitle (status : Nat) (summary : Except Str Str) : Except Str Str :=
  if status ≠ 200 then
    Except.error (str "Failed to fetch JIRA issue. Status: " ++ natToStr status)
  else
    match summary with
    | Except.error e => Except.error (str "Error unmarshaling JIRA response: " ++ e)
    | Except.ok s => Except.ok s

/-! ## Configuration, external world, events and outcomes -/

/-- CLI flags and environment variables, as read at startup.  An unset
environment variable reads as `""` (`[]`); `issueFlag` and `baseFlag`
are the values of `-issue` and `-base` after `flag.Parse()`. -/
structure Config where
  jiraBaseURL : Str
  jiraEmail : Str
  jiraAPIToken : Str
  githubToken : Str
  issueFlag : Str
  baseFlag : Str

/-- Results of the external calls a run may perform.  For the git
subprocesses, `.ok out` is the raw standard output and `.error e` a
non-zero exit rendering as `e`.  `jiraSummary` is the decoded
`fields.summary` of the 200 body (or a read/decode failure);
`githubURL` is the `url` field decoded from the 201 body. -/
structure World where
  gitCurrentBranch : Except Str Str
  gitSymbolicRef : Except Str Str
  gitRemoteUrl : Except Str Str
  jiraStatus : Nat
  jiraSummary : Except Str Str
  githubStatus : Nat
  githubBody : Str
  githubURL : Str

/-- The pull-request payload of the draft entry point
(`{title, body, head, base, draft}`). -/
structure PullRequestV2 where
  title : Str
  body : Str
  head : Str
  base : Str
  draft : Bool
deriving DecidableEq

/-- The pull-request payload of the older entry point
(`{title, body, head, base}`, no draft flag). -/
structure PullRequestV1 where
  title : Str
  body : Str
  head : Str
  base : Str
deriving DecidableEq

/-- External events of a run, in order: git subprocesses spawned and
HTTP requests issued. -/
inductive Event where
  | gitCurrentBranch
  | gitSymbolicRef
  | gitRemoteUrl
  | jiraGet (url : Str)
  | githubPostV2 (url : Str) (pr : PullRequestV2)
  | githubPostV1 (url : Str) (pr : PullRequestV1)
deriving DecidableEq

/-- How a run terminates: `ok prURL` is a zero exit (with the PR URL
printed, when one is), `fatal msg` a `log.Fatalf` (non-zero exit with
`msg`), `panic` a Go runtime panic (here: nil-pointer dereference). -/
inductive Outcome where
  | ok (prURL : Option Str)
  | fatal (msg : Str)
  | panic
deriving DecidableEq

/-- The `log.Fatalf` message for missing environment variables, shared
verbatim by both entry points; note it is one constant string naming
all four variables, whichever of them is missing. -/
def envErrMsg : Str :=
  str "Error: Required environment variables (JIRA_BASE_URL, JIRA_EMAIL, JIRA_API_TOKEN, GITHUB_TOKEN) are not set."

/-- The `log.Fatalf` message for a missing `-issue` flag. -/
def issueErrMsg : Str :=
  str "Error: The JIRA issue key must be provided using the -issue flag."

/-- The JIRA request URL `{base}/rest/api/3/issue/{key}`. -/
def jiraReqURL (cfg : Config) : Str :=
  cfg.jiraBaseURL ++ str "/rest/api/3/issue/" ++ cfg.issueFlag

/-- The GitHub request URL `https://api.github.com/repos/{owner}/{repo}/pulls`. -/
def githubPullsURL (owner repo : Str) : Str :=
  str "https://api.github.com/repos/" ++ owner ++ str "/" ++ repo ++ str "/pulls"

/-- The `log.Fatalf` message for a non-201 GitHub response (numeric
status standing in for Go's `resp.Status`); the response body is
appended verbatim. -/
def prFailMsg (status : Nat) (body : Str) : Str :=
  str "Failed to create pull request. Status: " ++ natToStr status ++
    str ", Response: " ++ body

/-! ## The draft entry point (`V2`)

The run is modelled in stages mirroring `main` of the draft entry
point; each stage returns the outcome together with the external events
it performs, and callers prepend their own events. -/

/-- Payload assembly of the draft entry point:

```go
pr := PullRequest{
    Title: fmt.Sprintf("[%s] %s", *jiraIssueKey, *prTitle),
    Body:  fmt.Sprintf("%s/browse/%s", jiraBaseURL, *jiraIssueKey),
    Head:  *sourceBranch,
    Base:  *baseBranch,
    Draft: true,
}
```
-/
def buildPRV2 (cfg : Config) (src base summary : Str) : PullRequestV2 :=
  { title := str "[" ++ cfg.issueFlag ++ str "] " ++ summary
    body := cfg.jiraBaseURL ++ str "/browse/" ++ cfg.issueFlag
    head := src
    base := base
    draft := true }

/-- The POST to the GitHub pulls endpoint and the status check of the
draft entry point: 201 prints the decoded PR URL and exits zero; any
other status is `log.Fatalf` with the status and the verbatim body. -/
def submitStageV2 (cfg : Config) (w : World) (owner repo src base summary : Str) :
    Outcome × List Event :=
  let pr := buildPRV2 cfg src base summary
  let url := githubPullsURL owner repo
  if w.githubStatus = 201 then
    (Outcome.ok (some w.githubURL), [Event.githubPostV2 url pr])
  else
    (Outcome.fatal (prFailMsg w.githubStatus w.githubBody), [Event.githubPostV2 url pr])

/-- The JIRA fetch step of the draft entry point (`getJiraIssueTitle`
followed by the `log.Fatalf` check in `main`). -/
def jiraStageV2 (cfg : Config) (w : World) (owner repo src base : Str) :
    Outcome × List Event :=
  match getJiraIssueTitle w.jiraStatus w.jiraSummary with
  | Except.error e =>
    (Outcome.fatal (str "Error fetching JIRA issue: " ++ e), [Event.jiraGet (jiraReqURL cfg)])
  | Except.ok summary =>
    ((submitStageV2 cfg w owner repo src base summary).1,
      Event.jiraGet (jiraReqURL cfg) :: (submitStageV2 cfg w owner repo src base summary).2)

/-- The repo-details step of the draft entry point. -/
def repoStageV2 (cfg : Config) (w : World) (src base : Str) : Outcome × List Event :=
  match getGitHubRepoDetails w.gitRemoteUrl with
  | Except.error e =>
    (Outcome.fatal (str "Error fetching GitHub repo details: " ++ e), [Event.gitRemoteUrl])
  | Except.ok (owner, repo) =>
    ((jiraStageV2 cfg w owner repo src base).1,
      Event.gitRemoteUrl :: (jiraStageV2 cfg w owner repo src base).2)

/-- The branch-resolution step of the draft entry point:

```go
sourceBranch, err := getCurrentBranch()
if baseBranch == nil || *baseBranch == "" {
    baseBranch, err = getDefaultBranch()
}
if err != nil {
    log.Fatalf("Error getting current branch: %v", err)
}
fmt.Printf("Using current branch as source branch: %s\n", *sourceBranch)
```

The single `err` variable is overwritten by the `getDefaultBranch`
call when `-base` is empty, so a `getCurrentBranch` failure followed by
a successful `getDefaultBranch` reaches the `*sourceBranch`
dereference with `sourceBranch == nil`: a runtime panic, modelled as
`Outcome.panic`. -/
def branchStageV2 (cfg : Config) (w : World) : Outcome × List Event :=
  match getCurrentBranch w.gitCurrentBranch with
  | Except.ok src =>
    if cfg.baseFlag = [] then
      match getDefaultBranch w.gitSymbolicRef with
      | Except.ok base =>
        ((repoStageV2 cfg w src base).1,
          Event.gitCurrentBranch :: Event.gitSymbolicRef :: (repoStageV2 cfg w src base).2)
      | Except.error e =>
        (Outcome.fatal (str "Error getting current branch: " ++ e),
          [Event.gitCurrentBranch, Event.gitSymbolicRef])
    else
      ((repoStageV2 cfg w src cfg.baseFlag).1,
        Event.gitCurrentBranch :: (repoStageV2 cfg w src cfg.baseFlag).2)
  | Except.error e =>
    if cfg.baseFlag = [] then
      match getDefaultBranch w.gitSymbolicRef with
      | Except.ok _ => (Outcome.panic, [Event.gitCurrentBranch, Event.gitSymbolicRef])
      | Except.error e2 =>
        (Outcome.fatal (str "Error getting current branch: " ++ e2),
          [Event.gitCurrentBranch, Event.gitSymbolicRef])
    else
      (Outcome.fatal (str "Error getting current branch: " ++ e), [Event.gitCurrentBranch])

/-- Model of `main` of the draft entry point: flag/environment validation, then
branch resolution, repo details, JIRA fetch and GitHub submission. -/
def runV2 (cfg : Config) (w : World) : Outcome × List Event :=
  if cfg.jiraBaseURL = [] ∨ cfg.jiraEmail = [] ∨ cfg.jiraAPIToken = [] ∨
      cfg.githubToken = [] then
    (Outcome.fatal envErrMsg, [])
  else if cfg.issueFlag = [] then
    (Outcome.fatal issueErrMsg, [])
  else
    branchStageV2 cfg w

/-! ## The older entry point (`V1`, `src/cmd/cli/pr/main.go`) -/

/-- Model of `main` of the older entry point: no default-branch discovery (the
`-base` flag defaults to `"main"`), title is the bare summary, the body
carries a trailing period, and a 201 response prints only a success
message (no PR URL). -/
def runV1 (cfg : Config) (w : World) : Outcome × List Event :=
  if cfg.jiraBaseURL = [] ∨ cfg.jiraEmail = [] ∨ cfg.jiraAPIToken = [] ∨
      cfg.githubToken = [] then
    (Outcome.fatal envErrMsg, [])
  else if cfg.issueFlag = [] then
    (Outcome.fatal issueErrMsg, [])
  else
    match getCurrentBranch w.gitCurrentBranch with
    | Except.error e =>
      (Outcome.fatal (str "Error getting current branch: " ++ e), [Event.gitCurrentBranch])
    | Except.ok src =>
      match getGitHubRepoDetails w.gitRemoteUrl with
      | Except.error e =>
        (Outcome.fatal (str "Error fetching GitHub repo details: " ++ e),
          [Event.gitCurrentBranch, Event.gitRemoteUrl])
      | Except.ok (owner, repo) =>
        match getJiraIssueTitle w.jiraStatus w.jiraSummary with
        | Except.error e =>
          (Outcome.fatal (str "Error fetching JIRA issue: " ++ e),
            [Event.gitCurrentBranch, Event.gitRemoteUrl, Event.jiraGet (jiraReqURL cfg)])
        | Except.ok summary =>
          let pr : PullRequestV1 :=
            { title := summary
              body := cfg.jiraBaseURL ++ str "/browse/" ++ cfg.issueFlag ++ str "."
              head := src
              base := cfg.baseFlag }
          let url := githubPullsURL owner repo
          let evs := [Event.gitCurrentBranch, Event.gitRemoteUrl,
            Event.jiraGet (jiraReqURL cfg), Event.githubPostV1 url pr]
          if w.githubStatus = 201 then (Outcome.ok none, evs)
          else (Outcome.fatal (prFailMsg w.githubStatus w.githubBody), evs)

/-! ## Helper lemmas about the string primitives -/

/-- Splitting always yields at least one segment. -/
theorem goSplit_ne_nil (sep : Char) (s : Str) : goSplit sep s ≠ [] := by
  cases s with
  | nil => simp [goSplit]
  | cons c rest =>
    simp only [goSplit]
    cases hg : goSplit sep rest with
    | nil => simp
    | cons a as => by_cases hc : c = sep <;> simp [hc]

/-- Splitting a separator-free string yields the single segment. -/
theorem goSplit_not_mem {sep : Char} {xs : Str} (h : sep ∉ xs) : goSplit sep xs = [xs] := by
  induction xs with
  | nil => rfl
  | cons c rest ih =>
    have hc : c ≠ sep := fun hcs => h (hcs ▸ List.mem_cons_self c rest)
    have hrest : sep ∉ rest := fun hm => h (List.mem_cons_of_mem _ hm)
    simp [goSplit, ih hrest, hc]

/-- Splitting peels off the leading separator-free segment. -/
theorem goSplit_append {sep : Char} {xs : Str} (ys : Str) (h : sep ∉ xs) :
    goSplit sep (xs ++ sep :: ys) = xs :: goSplit sep ys := by
  induction xs with
  | nil =>
    simp only [List.nil_append, goSplit]
    cases hg : goSplit sep ys with
    | nil => exact absurd hg (goSplit_ne_nil sep ys)
    | cons a as => simp
  | cons c rest ih =>
    have hc : c ≠ sep := fun hcs => h (hcs ▸ List.mem_cons_self c rest)
    have hrest : sep ∉ rest := fun hm => h (List.mem_cons_of_mem _ hm)
    rw [List.cons_append]
    simp only [goSplit, List.append_eq]
    rw [ih hrest]
    simp [hc]

/-- A list is a `isPrefixOf` of itself followed by anything. -/
theorem isPrefixOf_append_self (l t : Str) : List.isPrefixOf l (l ++ t) = true := by
  induction l with
  | nil => simp
  | cons c rest ih => simp [List.isPrefixOf_cons₂, ih]

/-- A boolean prefix test only looks at the first `p.length` characters. -/
theorem isPrefixOf_append_of_le {p : Str} (b : Str) :
    ∀ (a : Str), p.length ≤ a.length → List.isPrefixOf p (a ++ b) = List.isPrefixOf p a := by
  induction p with
  | nil => intro a _; simp
  | cons c cs ih =>
    intro a h
    cases a with
    | nil => simp at h
    | cons x xs =>
      rw [List.cons_append, List.isPrefixOf_cons₂, List.isPrefixOf_cons₂,
        ih xs (Nat.le_of_succ_le_succ h)]

/-- A boolean prefix agrees with the longer list position by position. -/
theorem isPrefixOf_getElem {p l : Str} (h : List.isPrefixOf p l = true) :
    ∀ k, k < p.length → l[k]? = p[k]? := by
  induction p generalizing l with
  | nil => intro k hk; simp at hk
  | cons c cs ih =>
    cases l with
    | nil => simp [List.isPrefixOf] at h
    | cons x xs =>
      rw [List.isPrefixOf_cons₂, Bool.and_eq_true] at h
      have hcx : c = x := eq_of_beq h.1
      intro k hk
      cases k with
      | zero => simp [hcx]
      | succ k' =>
        simp only [List.getElem?_cons_succ]
        exact ih h.2 k' (Nat.lt_of_succ_lt_succ hk)

/-- Appending on the left does not change a suffix test shorter than the
right part. -/
theorem strEndsWith_append {b m : Str} (a : Str) (h : m.length ≤ b.length) :
    strEndsWith (a ++ b) m = strEndsWith b m := by
  unfold strEndsWith
  rw [List.reverse_append]
  exact isPrefixOf_append_of_le _ _ (by simpa using h)

/-- If the candidate suffix is longer than the final segment and avoids
the separator character just before it, the suffix test fails. -/
theorem strEndsWith_sep_short {b m : Str} (a : Str) (sep : Char) (hm : sep ∉ m)
    (hb : b.length < m.length) : strEndsWith (a ++ sep :: b) m = false := by
  by_contra hcon
  rw [Bool.not_eq_false] at hcon
  unfold strEndsWith at hcon
  rw [List.reverse_append, List.reverse_cons, List.append_assoc,
    List.singleton_append] at hcon
  have hget := isPrefixOf_getElem hcon b.length (by simpa using hb)
  rw [List.getElem?_append_right (by simp)] at hget
  simp only [List.length_reverse, Nat.sub_self, List.getElem?_cons_zero] at hget
  have : sep ∈ m.reverse := List.getElem?_mem hget.symm
  exact hm (List.mem_reverse.mp this)

/-- Trimming a suffix that is literally there removes exactly it. -/
theorem goTrimSuffix_append (l m : Str) : goTrimSuffix (l ++ m) m = l := by
  unfold goTrimSuffix
  have he : strEndsWith (l ++ m) m = true := by
    unfold strEndsWith
    rw [List.reverse_append]
    exact isPrefixOf_append_self _ _
  rw [he, if_pos rfl, List.length_append, Nat.add_sub_cancel, List.take_left]

/-- Trimming an absent suffix is the identity. -/
theorem goTrimSuffix_of_not (s m : Str) (h : strEndsWith s m = false) :
    goTrimSuffix s m = s := by
  unfold goTrimSuffix
  rw [h]
  simp

/-- The default value of a non-empty list's `getLastD` is irrelevant. -/
theorem getLastD_irrel {α : Type} (l : List α) (h : l ≠ []) (d d' : α) :
    l.getLastD d = l.getLastD d' := by
  cases l with
  | nil => exact absurd rfl h
  | cons a t => rw [List.getLastD_cons, List.getLastD_cons]

/-- Indexing a non-empty list at `length - 1` is its last element. -/
theorem getD_length_sub_one {α : Type} (l : List α) (d : α) (h : l ≠ []) :
    l.getD (l.length - 1) d = l.getLastD d := by
  induction l with
  | nil => exact absurd rfl h
  | cons a t ih =>
    cases t with
    | nil => rfl
    | cons b t2 =>
      have hlen : (a :: b :: t2).length - 1 = (b :: t2).length - 1 + 1 := by
        simp [Nat.add_sub_cancel]
      rw [hlen]
      have hstep : (a :: b :: t2).getD ((b :: t2).length - 1 + 1) d =
          (b :: t2).getD ((b :: t2).length - 1) d := rfl
      rw [hstep, ih (List.cons_ne_nil b t2),
        show (a :: b :: t2).getLastD d = (b :: t2).getLastD a from
          List.getLastD_cons d a (b :: t2)]
      exact getLastD_irrel _ (List.cons_ne_nil b t2) d a

/-! ## Facts about the remote-URL parser -/

/-- A non-empty parse result is returned as-is. -/
theorem parseRemoteURL_of_parseOwnerRepo {url o r : Str}
    (h : parseOwnerRepo url = (o, r)) (ho : o ≠ []) (hr : r ≠ []) :
    parseRemoteURL url = Except.ok (o, r) := by
  unfold parseRemoteURL
  rw [h, if_neg]
  rintro (hc | hc)
  · exact ho hc
  · exact hr hc

/-- The `owner, repo` locals computed on `https://host/OWNER/REPO.git`. -/
theorem parseOwnerRepo_https_dotgit (host owner repo : Str)
    (hh : '/' ∉ host) (ho : '/' ∉ owner) (hr : '/' ∉ repo) :
    parseOwnerRepo (str "https://" ++ host ++ str "/" ++ owner ++ str "/" ++ repo ++ str ".git")
      = (owner, repo) := by
  have hcanon : str "https://" ++ host ++ str "/" ++ owner ++ str "/" ++ repo ++ str ".git"
      = str "https://" ++ (host ++ '/' :: (owner ++ '/' :: (repo ++ str ".git"))) := by
    simp only [List.append_assoc]
    rfl
  have hgroup : str "https://" ++ (host ++ '/' :: (owner ++ '/' :: (repo ++ str ".git")))
      = (str "https://" ++ (host ++ '/' :: (owner ++ '/' :: repo))) ++ str ".git" := by
    simp [List.append_assoc]
  rw [hcanon, hgroup]
  have hpre : List.isPrefixOf (str "https://")
      ((str "https://" ++ (host ++ '/' :: (owner ++ '/' :: repo))) ++ str ".git") = true := by
    rw [List.append_assoc]
    exact isPrefixOf_append_self _ _
  unfold parseOwnerRepo
  rw [hpre, if_pos rfl, goTrimSuffix_append]
  have e1 : str "https://" ++ (host ++ '/' :: (owner ++ '/' :: repo))
      = str "https:" ++ '/' :: ([] ++ '/' :: (host ++ '/' :: (owner ++ '/' :: repo))) := rfl
  rw [e1, goSplit_append _ (by decide), goSplit_append _ (by decide),
    goSplit_append _ hh, goSplit_append _ ho, goSplit_not_mem hr]
  rfl

/-- The `owner, repo` locals computed on `https://host/OWNER/REPO` when
`REPO` does not itself end in `.git`. -/
theorem parseOwnerRepo_https_plain (host owner repo : Str)
    (hh : '/' ∉ host) (ho : '/' ∉ owner) (hr : '/' ∉ repo)
    (hrg : strEndsWith repo (str ".git") = false) :
    parseOwnerRepo (str "https://" ++ host ++ str "/" ++ owner ++ str "/" ++ repo)
      = (owner, repo) := by
  have hcanon : str "https://" ++ host ++ str "/" ++ owner ++ str "/" ++ repo
      = str "https://" ++ (host ++ '/' :: (owner ++ '/' :: repo)) := by
    simp only [List.append_assoc]
    rfl
  have hgroup : str "https://" ++ (host ++ '/' :: (owner ++ '/' :: repo))
      = (str "https://" ++ (host ++ '/' :: owner)) ++ '/' :: repo := by
    simp [List.append_assoc]
  have hnosuf : strEndsWith
      (str "https://" ++ (host ++ '/' :: (owner ++ '/' :: repo))) (str ".git") = false := by
    rw [hgroup]
    rcases Nat.lt_or_ge repo.length (str ".git").length with h4 | h4
    · exact strEndsWith_sep_short _ '/' (by decide) h4
    · have e2 : (str "https://" ++ (host ++ '/' :: owner)) ++ '/' :: repo
          = ((str "https://" ++ (host ++ '/' :: owner)) ++ ['/']) ++ repo := by
        simp [List.append_assoc]
      rw [e2, strEndsWith_append _ h4, hrg]
  rw [hcanon]
  have hpre : List.isPrefixOf (str "https://")
      (str "https://" ++ (host ++ '/' :: (owner ++ '/' :: repo))) = true :=
    isPrefixOf_append_self _ _
  unfold parseOwnerRepo
  rw [hpre, if_pos rfl, goTrimSuffix_of_not _ _ hnosuf]
  have e1 : str "https://" ++ (host ++ '/' :: (owner ++ '/' :: repo))
      = str "https:" ++ '/' :: ([] ++ '/' :: (host ++ '/' :: (owner ++ '/' :: repo))) := rfl
  rw [e1, goSplit_append _ (by decide), goSplit_append _ (by decide),
    goSplit_append _ hh, goSplit_append _ ho, goSplit_not_mem hr]
  rfl

/-- The `owner, repo` locals computed on `git@host:OWNER/REPO.git`. -/
theorem parseOwnerRepo_ssh (host owner repo : Str)
    (hh2 : ':' ∉ host)
    (ho1 : '/' ∉ owner) (ho2 : ':' ∉ owner)
    (hr1 : '/' ∉ repo) (hr2 : ':' ∉ repo) :
    parseOwnerRepo (str "git@" ++ host ++ str ":" ++ owner ++ str "/" ++ repo ++ str ".git")
      = (owner, repo) := by
  have hcanon : str "git@" ++ host ++ str ":" ++ owner ++ str "/" ++ repo ++ str ".git"
      = str "git@" ++ (host ++ ':' :: (owner ++ '/' :: (repo ++ str ".git"))) := by
    simp only [List.append_assoc]
    rfl
  have hgroup : str "git@" ++ (host ++ ':' :: (owner ++ '/' :: (repo ++ str ".git")))
      = (str "git@" ++ (host ++ ':' :: (owner ++ '/' :: repo))) ++ str ".git" := by
    simp [List.append_assoc]
  rw [hcanon, hgroup]
  have hnotHttps : List.isPrefixOf (str "https://")
      ((str "git@" ++ (host ++ ':' :: (owner ++ '/' :: repo))) ++ str ".git") = false := rfl
  have hgit : List.isPrefixOf (str "git@")
      ((str "git@" ++ (host ++ ':' :: (owner ++ '/' :: repo))) ++ str ".git") = true := by
    rw [List.append_assoc]
    exact isPrefixOf_append_self _ _
  unfold parseOwnerRepo
  rw [hnotHttps, hgit, if_neg (by simp), if_pos rfl, goTrimSuffix_append]
  have e1 : str "git@" ++ (host ++ ':' :: (owner ++ '/' :: repo))
      = (str "git@" ++ host) ++ ':' :: (owner ++ '/' :: repo) := by
    simp [List.append_assoc]
  have hxs : ':' ∉ str "git@" ++ host := by
    intro hmem
    rcases List.mem_append.mp hmem with hmem | hmem
    · revert hmem; decide
    · exact hh2 hmem
  have hys : ':' ∉ owner ++ '/' :: repo := by
    intro hmem
    rcases List.mem_append.mp hmem with hmem | hmem
    · exact ho2 hmem
    · rcases List.mem_cons.mp hmem with hmem | hmem
      · exact absurd hmem (by decide)
      · exact hr2 hmem
  rw [e1, goSplit_append _ hxs, goSplit_not_mem hys]
  have hsub : goSplit '/' (owner ++ '/' :: repo) = [owner, repo] := by
    rw [goSplit_append _ ho1, goSplit_not_mem hr1]
  simp [hsub]

/-- C2 counterexample: an HTTPS URL with a single path segment after the
host is not rejected — the parser returns the host itself as owner, a
wrong non-empty pair, with no `ParseError`. -/
theorem https_single_segment_parses :
    parseRemoteURL (str "https://github.com/myrepo")
      = Except.ok (str "github.com", str "myrepo") := by decide

/-- C2 (amended): any URL whose scheme is neither `https://` nor `git@`
yields a `ParseError`; every `ParseError` names the offending URL; and a
successful parse never carries an empty owner or repo.  (The original
claim's "fewer than two path segments always yields a ParseError" and
"never a wrong pair" parts fail — see `https_single_segment_parses`.) -/
theorem remote_url_error_behavior (url : Str) :
    (List.isPrefixOf (str "https://") url = false →
      List.isPrefixOf (str "git@") url = false →
      parseRemoteURL url
        = Except.error (str "could not parse owner and repo from URL: " ++ url)) ∧
    (∀ e, parseRemoteURL url = Except.error e →
      e = str "could not parse owner and repo from URL: " ++ url) ∧
    (∀ o r, parseRemoteURL url = Except.ok (o, r) → o ≠ [] ∧ r ≠ []) := by
  refine ⟨?_, ?_, ?_⟩
  · intro h1 h2
    have hp : parseOwnerRepo url = ([], []) := by
      unfold parseOwnerRepo
      rw [h1, h2]
      simp
    unfold parseRemoteURL
    rw [hp]
    simp
  · intro e h
    unfold parseRemoteURL at h
    by_cases hc : (parseOwnerRepo url).1 = [] ∨ (parseOwnerRepo url).2 = []
    · rw [if_pos hc] at h
      injection h with he
      exact he.symm
    · rw [if_neg hc] at h
      cases h
  · intro o r h
    unfold parseRemoteURL at h
    by_cases hc : (parseOwnerRepo url).1 = [] ∨ (parseOwnerRepo url).2 = []
    · rw [if_pos hc] at h
      cases h
    · rw [if_neg hc] at h
      push_neg at hc
      injection h with h2
      rw [h2] at hc
      simpa using hc

/-- Witness for `remote_url_error_behavior` at the concrete unsupported
scheme `ftp://`. -/
theorem remote_url_error_behavior_witness :
    parseRemoteURL (str "ftp://example.com/a/b")
      = Except.error (str "could not parse owner and repo from URL: "
          ++ str "ftp://example.com/a/b") :=
  (remote_url_error_behavior (str "ftp://example.com/a/b")).1 (by decide) (by decide)

/-- C4 counterexample: with HOST = `host`, OWNER = `owner`,
REPO = `x.git` (non-empty, no `/` or `:`), the suffix-free HTTPS form
`https://host/owner/x.git` parses to `(owner, x)` — the blind `.git`
trim makes the claimed result `(owner, x.git)` unattainable. -/
theorem https_repo_dotgit_trimmed :
    parseRemoteURL (str "https://host/owner/x.git") = Except.ok (str "owner", str "x") ∧
    parseRemoteURL (str "https://host/owner/x.git") ≠ Except.ok (str "owner", str "x.git") :=
  ⟨by decide, by decide⟩

/-- C4 (amended): for non-empty `host`, `OWNER`, `REPO` free of `/` and
`:`, the parser maps `https://host/OWNER/REPO.git` and
`git@host:OWNER/REPO.git` to exactly `(OWNER, REPO)`, and
`https://host/OWNER/REPO` to `(OWNER, REPO)` provided `REPO` does not
itself end in `.git` (otherwise that suffix is stripped — see
`https_repo_dotgit_trimmed`). -/
theorem wellformed_remote_urls_parse (host owner repo : Str)
    (hhne : host ≠ []) (hone : owner ≠ []) (hrne : repo ≠ [])
    (hh1 : '/' ∉ host) (hh2 : ':' ∉ host)
    (ho1 : '/' ∉ owner) (ho2 : ':' ∉ owner)
    (hr1 : '/' ∉ repo) (hr2 : ':' ∉ repo) :
    parseRemoteURL (str "https://" ++ host ++ str "/" ++ owner ++ str "/" ++ repo ++ str ".git")
      = Except.ok (owner, repo) ∧
    (strEndsWith repo (str ".git") = false →
      parseRemoteURL (str "https://" ++ host ++ str "/" ++ owner ++ str "/" ++ repo)
        = Except.ok (owner, repo)) ∧
    parseRemoteURL (str "git@" ++ host ++ str ":" ++ owner ++ str "/" ++ repo ++ str ".git")
      = Except.ok (owner, repo) := by
  refine ⟨?_, ?_, ?_⟩
  · exact parseRemoteURL_of_parseOwnerRepo
      (parseOwnerRepo_https_dotgit host owner repo hh1 ho1 hr1) hone hrne
  · intro hrg
    exact parseRemoteURL_of_parseOwnerRepo
      (parseOwnerRepo_https_plain host owner repo hh1 ho1 hr1 hrg) hone hrne
  · exact parseRemoteURL_of_parseOwnerRepo
      (parseOwnerRepo_ssh host owner repo hh2 ho1 ho2 hr1 hr2) hone hrne

/-- Witness for `wellformed_remote_urls_parse` at this repository's own
remote URL. -/
theorem wellformed_remote_urls_parse_witness :
    parseRemoteURL (str "https://github.com/jmoney/create-pr-from-jira.git")
      = Except.ok (str "jmoney", str "create-pr-from-jira") := by
  have h := (wellformed_remote_urls_parse (str "github.com") (str "jmoney")
    (str "create-pr-from-jira") (by decide) (by decide) (by decide) (by decide)
    (by decide) (by decide) (by decide) (by decide) (by decide)).1
  have e : str "https://" ++ str "github.com" ++ str "/" ++ str "jmoney" ++ str "/"
      ++ str "create-pr-from-jira" ++ str ".git"
      = str "https://github.com/jmoney/create-pr-from-jira.git" := by decide
  rw [e] at h
  exact h

/-! ## Facts about default-branch parsing -/

/-- On any subprocess output, the parsing step of `getDefaultBranch`
returns the last `/`-separated segment of the trimmed output; its error
branch is unreachable. -/
theorem getDefaultBranchParse_ok (output : Str) :
    getDefaultBranchParse output
      = Except.ok ((goSplit '/' (goTrimSpace output)).getLastD []) := by
  unfold getDefaultBranchParse
  have hne := goSplit_ne_nil '/' (goTrimSpace output)
  rw [if_pos (List.length_pos.mpr hne), getD_length_sub_one _ _ hne]

/-- C10: splitting on `/` always yields at least one segment, so the
"could not parse default branch" branch of `getDefaultBranch` is
unreachable: on subprocess success it returns the (possibly empty) last
segment, and it errors only when the subprocess itself failed. -/
theorem default_branch_parse_total (res : Except Str Str) :
    (∀ s : Str, goSplit '/' s ≠ []) ∧
    (∀ out, res = Except.ok out →
      getDefaultBranch res = Except.ok ((goSplit '/' (goTrimSpace out)).getLastD [])) ∧
    (∀ e, getDefaultBranch res = Except.error e →
      ∃ e0, res = Except.error e0 ∧ e = str "failed to get default branch: " ++ e0) := by
  refine ⟨goSplit_ne_nil '/', ?_, ?_⟩
  · intro out h
    subst h
    exact getDefaultBranchParse_ok out
  · intro e h
    cases res with
    | error e0 =>
      refine ⟨e0, rfl, ?_⟩
      simp only [getDefaultBranch] at h
      injection h with he
      exact he.symm
    | ok out =>
      rw [show getDefaultBranch (Except.ok out) = getDefaultBranchParse out from rfl,
        getDefaultBranchParse_ok] at h
      cases h

/-- Witness for `default_branch_parse_total` at the usual symbolic-ref
output. -/
theorem default_branch_parse_total_witness :
    getDefaultBranch (Except.ok (str "refs/remotes/origin/main\n"))
      = Except.ok (str "main") := by
  have h := (default_branch_parse_total
    (Except.ok (str "refs/remotes/origin/main\n"))).2.1 (str "refs/remotes/origin/main\n") rfl
  rw [h]
  decide

/-! ## Cascade lemmas for the draft entry point -/

/-- A GitHub POST event in the submit stage carries the assembled
payload and endpoint. -/
theorem submitStageV2_post {cfg : Config} {w : World} {owner repo src base summary u : Str}
    {pr : PullRequestV2}
    (h : Event.githubPostV2 u pr ∈ (submitStageV2 cfg w owner repo src base summary).2) :
    u = githubPullsURL owner repo ∧ pr = buildPRV2 cfg src base summary := by
  unfold submitStageV2 at h
  by_cases hs : w.githubStatus = 201
  · rw [if_pos hs] at h
    simpa using h
  · rw [if_neg hs] at h
    simpa using h

/-- A zero-exit submit stage means status 201 and the decoded PR URL. -/
theorem submitStageV2_ok {cfg : Config} {w : World} {owner repo src base summary : Str}
    {u : Option Str}
    (h : (submitStageV2 cfg w owner repo src base summary).1 = Outcome.ok u) :
    w.githubStatus = 201 ∧ u = some w.githubURL := by
  unfold submitStageV2 at h
  by_cases hs : w.githubStatus = 201
  · rw [if_pos hs] at h
    injection h with hu
    exact ⟨hs, hu.symm⟩
  · rw [if_neg hs] at h
    cases h

/-- A non-201 GitHub status makes the submit stage fatal with the
status and the verbatim body. -/
theorem submitStageV2_fail {cfg : Config} {w : World} {owner repo src base summary : Str}
    (hs : w.githubStatus ≠ 201) :
    (submitStageV2 cfg w owner repo src base summary).1
      = Outcome.fatal (prFailMsg w.githubStatus w.githubBody) := by
  unfold submitStageV2
  rw [if_neg hs]

/-- The submit stage spawns no git subprocess. -/
theorem submitStageV2_no_symref {cfg : Config} {w : World} {owner repo src base summary : Str} :
    Event.gitSymbolicRef ∉ (submitStageV2 cfg w owner repo src base summary).2 := by
  unfold submitStageV2
  by_cases hs : w.githubStatus = 201
  · rw [if_pos hs]; simp
  · rw [if_neg hs]; simp

/-- Cascade through the JIRA stage for a POST event. -/
theorem jiraStageV2_post {cfg : Config} {w : World} {owner repo src base u : Str}
    {pr : PullRequestV2}
    (h : Event.githubPostV2 u pr ∈ (jiraStageV2 cfg w owner repo src base).2) :
    ∃ summary, getJiraIssueTitle w.jiraStatus w.jiraSummary = Except.ok summary ∧
      Event.githubPostV2 u pr ∈ (submitStageV2 cfg w owner repo src base summary).2 ∧
      (jiraStageV2 cfg w owner repo src base).1
        = (submitStageV2 cfg w owner repo src base summary).1 := by
  unfold jiraStageV2 at h ⊢
  cases hj : getJiraIssueTitle w.jiraStatus w.jiraSummary with
  | error e =>
    rw [hj] at h
    simp at h
  | ok summary =>
    rw [hj] at h
    simp only [List.mem_cons] at h
    rcases h with h | h
    · cases h
    · exact ⟨summary, rfl, h, rfl⟩

/-- A zero-exit JIRA stage came from a zero-exit submit stage. -/
theorem jiraStageV2_ok {cfg : Config} {w : World} {owner repo src base : Str} {u : Option Str}
    (h : (jiraStageV2 cfg w owner repo src base).1 = Outcome.ok u) :
    ∃ summary, getJiraIssueTitle w.jiraStatus w.jiraSummary = Except.ok summary ∧
      (submitStageV2 cfg w owner repo src base summary).1 = Outcome.ok u := by
  unfold jiraStageV2 at h
  cases hj : getJiraIssueTitle w.jiraStatus w.jiraSummary with
  | error e =>
    rw [hj] at h
    cases h
  | ok summary =>
    rw [hj] at h
    exact ⟨summary, rfl, h⟩

/-- A non-200 JIRA status makes the JIRA stage fatal with the status in
the message, and it issues no GitHub POST. -/
theorem jiraStageV2_fail {cfg : Config} {w : World} {owner repo src base : Str}
    (hs : w.jiraStatus ≠ 200) :
    (jiraStageV2 cfg w owner repo src base).1
      = Outcome.fatal (str "Error fetching JIRA issue: "
          ++ (str "Failed to fetch JIRA issue. Status: " ++ natToStr w.jiraStatus)) := by
  unfold jiraStageV2
  have hj : getJiraIssueTitle w.jiraStatus w.jiraSummary
      = Except.error (str "Failed to fetch JIRA issue. Status: " ++ natToStr w.jiraStatus) := by
    unfold getJiraIssueTitle
    rw [if_pos hs]
  rw [hj]

/-- The JIRA stage spawns no git subprocess. -/
theorem jiraStageV2_no_symref {cfg : Config} {w : World} {owner repo src base : Str} :
    Event.gitSymbolicRef ∉ (jiraStageV2 cfg w owner repo src base).2 := by
  unfold jiraStageV2
  cases hj : getJiraIssueTitle w.jiraStatus w.jiraSummary with
  | error e => simp
  | ok summary =>
    simp only [List.mem_cons]
    rintro (h | h)
    · cases h
    · exact submitStageV2_no_symref h

/-- Cascade through the repo-details stage for a POST event. -/
theorem repoStageV2_post {cfg : Config} {w : World} {src base u : Str} {pr : PullRequestV2}
    (h : Event.githubPostV2 u pr ∈ (repoStageV2 cfg w src base).2) :
    ∃ owner repo, getGitHubRepoDetails w.gitRemoteUrl = Except.ok (owner, repo) ∧
      Event.githubPostV2 u pr ∈ (jiraStageV2 cfg w owner repo src base).2 ∧
      (repoStageV2 cfg w src base).1 = (jiraStageV2 cfg w owner repo src base).1 := by
  unfold repoStageV2 at h ⊢
  cases hg : getGitHubRepoDetails w.gitRemoteUrl with
  | error e =>
    rw [hg] at h
    simp at h
  | ok p =>
    obtain ⟨owner, repo⟩ := p
    rw [hg] at h
    simp only [List.mem_cons] at h
    rcases h with h | h
    · cases h
    · exact ⟨owner, repo, rfl, h, rfl⟩

/-- A zero-exit repo stage came from a zero-exit JIRA stage. -/
theorem repoStageV2_ok {cfg : Config} {w : World} {src base : Str} {u : Option Str}
    (h : (repoStageV2 cfg w src base).1 = Outcome.ok u) :
    ∃ owner repo, getGitHubRepoDetails w.gitRemoteUrl = Except.ok (owner, repo) ∧
      (jiraStageV2 cfg w owner repo src base).1 = Outcome.ok u := by
  unfold repoStageV2 at h
  cases hg : getGitHubRepoDetails w.gitRemoteUrl with
  | error e =>
    rw [hg] at h
    cases h
  | ok p =>
    obtain ⟨owner, repo⟩ := p
    rw [hg] at h
    exact ⟨owner, repo, rfl, h⟩

/-- The repo stage never runs the symbolic-ref subprocess. -/
theorem repoStageV2_no_symref {cfg : Config} {w : World} {src base : Str} :
    Event.gitSymbolicRef ∉ (repoStageV2 cfg w src base).2 := by
  unfold repoStageV2
  cases hg : getGitHubRepoDetails w.gitRemoteUrl with
  | error e => simp
  | ok p =>
    obtain ⟨owner, repo⟩ := p
    simp only [List.mem_cons]
    rintro (h | h)
    · cases h
    · exact jiraStageV2_no_symref h

/-- The repo stage has no JIRA GET before the JIRA stage. -/
theorem repoStageV2_jiraGet {cfg : Config} {w : World} {src base u : Str}
    (h : Event.jiraGet u ∈ (repoStageV2 cfg w src base).2) :
    ∃ owner repo, getGitHubRepoDetails w.gitRemoteUrl = Except.ok (owner, repo) ∧
      (repoStageV2 cfg w src base).1 = (jiraStageV2 cfg w owner repo src base).1 := by
  unfold repoStageV2 at h ⊢
  cases hg : getGitHubRepoDetails w.gitRemoteUrl with
  | error e =>
    rw [hg] at h
    simp at h
  | ok p =>
    obtain ⟨owner, repo⟩ := p
    rw [hg] at h
    exact ⟨owner, repo, rfl, rfl⟩


/-! ## Equations for the branch-resolution stage -/

/-- Non-empty `-base`, current branch resolved. -/
theorem branchStageV2_eq_base_ok {cfg : Config} {w : World} {src : Str}
    (hc : getCurrentBranch w.gitCurrentBranch = Except.ok src) (hb : cfg.baseFlag ≠ []) :
    branchStageV2 cfg w = ((repoStageV2 cfg w src cfg.baseFlag).1,
      Event.gitCurrentBranch :: (repoStageV2 cfg w src cfg.baseFlag).2) := by
  simp only [branchStageV2, hc, hb, if_false]

/-- Non-empty `-base`, current branch failed. -/
theorem branchStageV2_eq_base_err {cfg : Config} {w : World} {e : Str}
    (hc : getCurrentBranch w.gitCurrentBranch = Except.error e) (hb : cfg.baseFlag ≠ []) :
    branchStageV2 cfg w = (Outcome.fatal (str "Error getting current branch: " ++ e),
      [Event.gitCurrentBranch]) := by
  simp only [branchStageV2, hc, hb, if_false]

/-- Empty `-base`, both branch queries succeed. -/
theorem branchStageV2_eq_empty_ok_ok {cfg : Config} {w : World} {src base : Str}
    (hc : getCurrentBranch w.gitCurrentBranch = Except.ok src) (hb : cfg.baseFlag = [])
    (hd : getDefaultBranch w.gitSymbolicRef = Except.ok base) :
    branchStageV2 cfg w = ((repoStageV2 cfg w src base).1,
      Event.gitCurrentBranch :: Event.gitSymbolicRef :: (repoStageV2 cfg w src base).2) := by
  simp only [branchStageV2, hc, hb, hd, if_pos]

/-- Empty `-base`, current branch resolved but default-branch query
failed. -/
theorem branchStageV2_eq_empty_ok_err {cfg : Config} {w : World} {src e2 : Str}
    (hc : getCurrentBranch w.gitCurrentBranch = Except.ok src) (hb : cfg.baseFlag = [])
    (hd : getDefaultBranch w.gitSymbolicRef = Except.error e2) :
    branchStageV2 cfg w = (Outcome.fatal (str "Error getting current branch: " ++ e2),
      [Event.gitCurrentBranch, Event.gitSymbolicRef]) := by
  simp only [branchStageV2, hc, hb, hd, if_pos]

/-- Empty `-base`, current branch failed, default-branch query
succeeded: the overwritten `err` passes the check and `*sourceBranch`
dereferences nil. -/
theorem branchStageV2_eq_empty_err_ok {cfg : Config} {w : World} {e base : Str}
    (hc : getCurrentBranch w.gitCurrentBranch = Except.error e) (hb : cfg.baseFlag = [])
    (hd : getDefaultBranch w.gitSymbolicRef = Except.ok base) :
    branchStageV2 cfg w = (Outcome.panic,
      [Event.gitCurrentBranch, Event.gitSymbolicRef]) := by
  simp only [branchStageV2, hc, hb, hd, if_pos]

/-- Empty `-base`, both branch queries failed. -/
theorem branchStageV2_eq_empty_err_err {cfg : Config} {w : World} {e e2 : Str}
    (hc : getCurrentBranch w.gitCurrentBranch = Except.error e) (hb : cfg.baseFlag = [])
    (hd : getDefaultBranch w.gitSymbolicRef = Except.error e2) :
    branchStageV2 cfg w = (Outcome.fatal (str "Error getting current branch: " ++ e2),
      [Event.gitCurrentBranch, Event.gitSymbolicRef]) := by
  simp only [branchStageV2, hc, hb, hd, if_pos]

/-- Cascade through the branch-resolution stage for a POST event. -/
theorem branchStageV2_post {cfg : Config} {w : World} {u : Str} {pr : PullRequestV2}
    (h : Event.githubPostV2 u pr ∈ (branchStageV2 cfg w).2) :
    ∃ src base, getCurrentBranch w.gitCurrentBranch = Except.ok src ∧
      (cfg.baseFlag = [] → getDefaultBranch w.gitSymbolicRef = Except.ok base) ∧
      (cfg.baseFlag ≠ [] → base = cfg.baseFlag) ∧
      Event.githubPostV2 u pr ∈ (repoStageV2 cfg w src base).2 ∧
      (branchStageV2 cfg w).1 = (repoStageV2 cfg w src base).1 := by
  by_cases hb : cfg.baseFlag = []
  · cases hc : getCurrentBranch w.gitCurrentBranch with
    | ok src =>
      cases hd : getDefaultBranch w.gitSymbolicRef with
      | ok base =>
        rw [branchStageV2_eq_empty_ok_ok hc hb hd] at h ⊢
        simp only [List.mem_cons] at h
        rcases h with h | h
        · cases h
        · rcases h with h | h
          · cases h
          · exact ⟨src, base, rfl, fun _ => rfl, fun hne => absurd hb hne, h, rfl⟩
      | error e2 =>
        rw [branchStageV2_eq_empty_ok_err hc hb hd] at h
        simp at h
    | error e =>
      cases hd : getDefaultBranch w.gitSymbolicRef with
      | ok base =>
        rw [branchStageV2_eq_empty_err_ok hc hb hd] at h
        simp at h
      | error e2 =>
        rw [branchStageV2_eq_empty_err_err hc hb hd] at h
        simp at h
  · cases hc : getCurrentBranch w.gitCurrentBranch with
    | ok src =>
      rw [branchStageV2_eq_base_ok hc hb] at h ⊢
      simp only [List.mem_cons] at h
      rcases h with h | h
      · cases h
      · exact ⟨src, cfg.baseFlag, rfl, fun he => absurd he hb, fun _ => rfl, h, rfl⟩
    | error e =>
      rw [branchStageV2_eq_base_err hc hb] at h
      simp at h

/-- A zero-exit branch stage resolved the current branch and came from
a zero-exit repo stage. -/
theorem branchStageV2_ok {cfg : Config} {w : World} {u : Option Str}
    (h : (branchStageV2 cfg w).1 = Outcome.ok u) :
    ∃ src base, getCurrentBranch w.gitCurrentBranch = Except.ok src ∧
      (repoStageV2 cfg w src base).1 = Outcome.ok u := by
  by_cases hb : cfg.baseFlag = []
  · cases hc : getCurrentBranch w.gitCurrentBranch with
    | ok src =>
      cases hd : getDefaultBranch w.gitSymbolicRef with
      | ok base =>
        rw [branchStageV2_eq_empty_ok_ok hc hb hd] at h
        exact ⟨src, base, rfl, h⟩
      | error e2 =>
        rw [branchStageV2_eq_empty_ok_err hc hb hd] at h
        cases h
    | error e =>
      cases hd : getDefaultBranch w.gitSymbolicRef with
      | ok base =>
        rw [branchStageV2_eq_empty_err_ok hc hb hd] at h
        cases h
      | error e2 =>
        rw [branchStageV2_eq_empty_err_err hc hb hd] at h
        cases h
  · cases hc : getCurrentBranch w.gitCurrentBranch with
    | ok src =>
      rw [branchStageV2_eq_base_ok hc hb] at h
      exact ⟨src, cfg.baseFlag, rfl, h⟩
    | error e =>
      rw [branchStageV2_eq_base_err hc hb] at h
      cases h

/-- With a non-empty `-base` flag the branch stage never runs the
symbolic-ref subprocess. -/
theorem branchStageV2_no_symref {cfg : Config} {w : World} (hb : cfg.baseFlag ≠ []) :
    Event.gitSymbolicRef ∉ (branchStageV2 cfg w).2 := by
  cases hc : getCurrentBranch w.gitCurrentBranch with
  | ok src =>
    rw [branchStageV2_eq_base_ok hc hb]
    simp only [List.mem_cons]
    rintro (h | h)
    · cases h
    · exact repoStageV2_no_symref h
  | error e =>
    rw [branchStageV2_eq_base_err hc hb]
    simp

/-! ## Equations and cascades for the whole draft run -/

/-- A run with all required configuration present proceeds to the
branch stage. -/
theorem runV2_eq_go {cfg : Config} {w : World}
    (hmiss : ¬(cfg.jiraBaseURL = [] ∨ cfg.jiraEmail = [] ∨ cfg.jiraAPIToken = [] ∨
      cfg.githubToken = []))
    (hissue : cfg.issueFlag ≠ []) :
    runV2 cfg w = branchStageV2 cfg w := by
  unfold runV2
  rw [if_neg hmiss, if_neg hissue]

/-- A POST event in a full run passed through the branch stage, whose
outcome the run returns. -/
theorem runV2_post_step {cfg : Config} {w : World} {u : Str} {pr : PullRequestV2}
    (h : Event.githubPostV2 u pr ∈ (runV2 cfg w).2) :
    Event.githubPostV2 u pr ∈ (branchStageV2 cfg w).2 ∧
      (runV2 cfg w).1 = (branchStageV2 cfg w).1 := by
  by_cases hmiss : cfg.jiraBaseURL = [] ∨ cfg.jiraEmail = [] ∨ cfg.jiraAPIToken = [] ∨
      cfg.githubToken = []
  · unfold runV2 at h
    rw [if_pos hmiss] at h
    simp at h
  · by_cases hissue : cfg.issueFlag = []
    · unfold runV2 at h
      rw [if_neg hmiss, if_pos hissue] at h
      simp at h
    · rw [runV2_eq_go hmiss hissue] at h ⊢
      exact ⟨h, rfl⟩

/-- Full characterization of a GitHub POST in a draft run: every step
before it succeeded, the endpoint is the repos/pulls URL for the parsed
owner and repo, and the payload is the assembled draft payload. -/
theorem runV2_post_char {cfg : Config} {w : World} {u : Str} {pr : PullRequestV2}
    (h : Event.githubPostV2 u pr ∈ (runV2 cfg w).2) :
    ∃ src base summary owner repo,
      getCurrentBranch w.gitCurrentBranch = Except.ok src ∧
      (cfg.baseFlag = [] → getDefaultBranch w.gitSymbolicRef = Except.ok base) ∧
      (cfg.baseFlag ≠ [] → base = cfg.baseFlag) ∧
      getGitHubRepoDetails w.gitRemoteUrl = Except.ok (owner, repo) ∧
      getJiraIssueTitle w.jiraStatus w.jiraSummary = Except.ok summary ∧
      u = githubPullsURL owner repo ∧ pr = buildPRV2 cfg src base summary ∧
      (runV2 cfg w).1 = (submitStageV2 cfg w owner repo src base summary).1 := by
  obtain ⟨h, hrun⟩ := runV2_post_step h
  obtain ⟨src, base, hc, hde, hdn, h, hbr⟩ := branchStageV2_post h
  obtain ⟨owner, repo, hg, h, hrepo⟩ := repoStageV2_post h
  obtain ⟨summary, hj, h, hjira⟩ := jiraStageV2_post h
  obtain ⟨hu, hpr⟩ := submitStageV2_post h
  exact ⟨src, base, summary, owner, repo, hc, hde, hdn, hg, hj, hu, hpr,
    by rw [hrun, hbr, hrepo, hjira]⟩

/-- A zero-exit draft run decomposes into successes of every stage. -/
theorem runV2_ok_char {cfg : Config} {w : World} {u : Option Str}
    (h : (runV2 cfg w).1 = Outcome.ok u) :
    w.githubStatus = 201 ∧ u = some w.githubURL := by
  by_cases hmiss : cfg.jiraBaseURL = [] ∨ cfg.jiraEmail = [] ∨ cfg.jiraAPIToken = [] ∨
      cfg.githubToken = []
  · unfold runV2 at h
    rw [if_pos hmiss] at h
    cases h
  · by_cases hissue : cfg.issueFlag = []
    · unfold runV2 at h
      rw [if_neg hmiss, if_pos hissue] at h
      cases h
    · rw [runV2_eq_go hmiss hissue] at h
      obtain ⟨src, base, _, h⟩ := branchStageV2_ok h
      obtain ⟨owner, repo, _, h⟩ := repoStageV2_ok h
      obtain ⟨summary, _, h⟩ := jiraStageV2_ok h
      exact submitStageV2_ok h

/-- A JIRA GET event in the branch stage passed to the repo stage. -/
theorem branchStageV2_jiraGet {cfg : Config} {w : World} {u : Str}
    (h : Event.jiraGet u ∈ (branchStageV2 cfg w).2) :
    ∃ src base, Event.jiraGet u ∈ (repoStageV2 cfg w src base).2 ∧
      (branchStageV2 cfg w).1 = (repoStageV2 cfg w src base).1 := by
  by_cases hb : cfg.baseFlag = []
  · cases hc : getCurrentBranch w.gitCurrentBranch with
    | ok src =>
      cases hd : getDefaultBranch w.gitSymbolicRef with
      | ok base =>
        rw [branchStageV2_eq_empty_ok_ok hc hb hd] at h ⊢
        simp only [List.mem_cons] at h
        rcases h with h | h
        · cases h
        · rcases h with h | h
          · cases h
          · exact ⟨src, base, h, rfl⟩
      | error e2 =>
        rw [branchStageV2_eq_empty_ok_err hc hb hd] at h
        simp at h
    | error e =>
      cases hd : getDefaultBranch w.gitSymbolicRef with
      | ok base =>
        rw [branchStageV2_eq_empty_err_ok hc hb hd] at h
        simp at h
      | error e2 =>
        rw [branchStageV2_eq_empty_err_err hc hb hd] at h
        simp at h
  · cases hc : getCurrentBranch w.gitCurrentBranch with
    | ok src =>
      rw [branchStageV2_eq_base_ok hc hb] at h ⊢
      simp only [List.mem_cons] at h
      rcases h with h | h
      · cases h
      · exact ⟨src, cfg.baseFlag, h, rfl⟩
    | error e =>
      rw [branchStageV2_eq_base_err hc hb] at h
      simp at h

/-- A JIRA GET event in a full draft run pins the run outcome to the
JIRA stage's outcome. -/
theorem runV2_jiraGet_char {cfg : Config} {w : World} {u : Str}
    (h : Event.jiraGet u ∈ (runV2 cfg w).2) :
    ∃ src base owner repo,
      (runV2 cfg w).1 = (jiraStageV2 cfg w owner repo src base).1 := by
  by_cases hmiss : cfg.jiraBaseURL = [] ∨ cfg.jiraEmail = [] ∨ cfg.jiraAPIToken = [] ∨
      cfg.githubToken = []
  · unfold runV2 at h
    rw [if_pos hmiss] at h
    simp at h
  · by_cases hissue : cfg.issueFlag = []
    · unfold runV2 at h
      rw [if_neg hmiss, if_pos hissue] at h
      simp at h
    · rw [runV2_eq_go hmiss hissue] at h ⊢
      obtain ⟨src, base, h, hbr⟩ := branchStageV2_jiraGet h
      obtain ⟨owner, repo, _, hrepo⟩ := repoStageV2_jiraGet h
      exact ⟨src, base, owner, repo, by rw [hbr, hrepo]⟩

/-! ## The claims -/

/-- C1 counterexample: a run of the older entry point
(`src/cmd/cli/pr/main.go`) with issue key `PROJ-42` and fetched summary
`Fix login bug` POSTs a payload whose title is the bare summary (no
bracketed key) and whose body carries a trailing period. -/
theorem legacy_payload_differs :
    Event.githubPostV1 (str "https://api.github.com/repos/o/r/pulls")
        ⟨str "Fix login bug", str "https://jira.example.com/browse/PROJ-42.",
          str "feature", str "main"⟩ ∈
      (runV1 ⟨str "https://jira.example.com", str "me@example.com", str "tok", str "ghtok",
          str "PROJ-42", str "main"⟩
        ⟨Except.ok (str "feature\n"), Except.ok (str "refs/remotes/origin/main\n"),
          Except.ok (str "https://github.com/o/r.git\n"), 200,
          Except.ok (str "Fix login bug"), 201, str "respbody", str "u"⟩).2 ∧
    str "Fix login bug" ≠ str "[PROJ-42] Fix login bug" ∧
    str "https://jira.example.com/browse/PROJ-42."
      ≠ str "https://jira.example.com" ++ str "/browse/PROJ-42" :=
  ⟨by decide, by decide, by decide⟩

/-- C1 (amended): in the draft entry point, every run with issue key
`PROJ-42` whose fetched summary is `Fix login bug` POSTs a payload with
title exactly `[PROJ-42] Fix login bug` and body exactly
`{JIRA_BASE_URL}/browse/PROJ-42`; the older entry point instead uses
the bare summary as title and appends a period to the body. -/
theorem payload_title_body_proj42 (cfg : Config) (w : World) (u : Str) (pr : PullRequestV2)
    (hkey : cfg.issueFlag = str "PROJ-42")
    (hsum : getJiraIssueTitle w.jiraStatus w.jiraSummary = Except.ok (str "Fix login bug"))
    (hmem : Event.githubPostV2 u pr ∈ (runV2 cfg w).2) :
    pr.title = str "[PROJ-42] Fix login bug" ∧
    pr.body = cfg.jiraBaseURL ++ str "/browse/PROJ-42" := by
  obtain ⟨src, base, summary, owner, repo, _, _, _, _, hj, _, hpr, _⟩ := runV2_post_char hmem
  rw [hj] at hsum
  injection hsum with hs
  constructor
  · rw [hpr]
    simp only [buildPRV2]
    rw [hkey, hs]
    decide
  · rw [hpr]
    simp only [buildPRV2]
    rw [hkey, List.append_assoc]
    rfl

/-- Witness for `payload_title_body_proj42` on a concrete run. -/
theorem payload_title_body_proj42_witness :
    (⟨str "[PROJ-42] Fix login bug", str "https://jira.example.com/browse/PROJ-42",
        str "feature", str "main", true⟩ : PullRequestV2).title
      = str "[PROJ-42] Fix login bug" ∧
    (⟨str "[PROJ-42] Fix login bug", str "https://jira.example.com/browse/PROJ-42",
        str "feature", str "main", true⟩ : PullRequestV2).body
      = str "https://jira.example.com" ++ str "/browse/PROJ-42" :=
  payload_title_body_proj42
    ⟨str "https://jira.example.com", str "me@example.com", str "tok", str "ghtok",
      str "PROJ-42", str "main"⟩
    ⟨Except.ok (str "feature\n"), Except.ok (str "refs/remotes/origin/main\n"),
      Except.ok (str "https://github.com/o/r.git\n"), 200,
      Except.ok (str "Fix login bug"), 201, str "respbody", str "u"⟩
    (str "https://api.github.com/repos/o/r/pulls")
    ⟨str "[PROJ-42] Fix login bug", str "https://jira.example.com/browse/PROJ-42",
      str "feature", str "main", true⟩
    rfl rfl (by decide)

/-- C3: with `-base` empty, a failing `git rev-parse --abbrev-ref HEAD`
followed by a succeeding `git symbolic-ref` makes the run dereference
the nil `sourceBranch` pointer (a runtime panic, after both git
subprocesses and before any HTTP request) instead of reporting the
`GitError` — the single `err` variable is overwritten at line 154 of
the draft entry point. -/
theorem current_branch_error_panics :
    runV2 ⟨str "https://jira.example.com", str "me@example.com", str "tok", str "ghtok",
        str "PROJ-1", []⟩
      ⟨Except.error (str "exit status 128"), Except.ok (str "refs/remotes/origin/main\n"),
        Except.ok (str "https://github.com/o/r.git\n"), 200, Except.ok (str "title"),
        201, str "respbody", str "u"⟩
      = (Outcome.panic, [Event.gitCurrentBranch, Event.gitSymbolicRef]) := by decide

/-- C5: in the draft entry point, whenever `-base` is empty and a
payload is POSTed, its base branch is the last `/`-separated segment of
the trimmed output of the `git symbolic-ref refs/remotes/origin/HEAD`
query. -/
theorem empty_base_uses_default_branch (cfg : Config) (w : World) (out u : Str)
    (pr : PullRequestV2)
    (hb : cfg.baseFlag = [])
    (hout : w.gitSymbolicRef = Except.ok out)
    (hmem : Event.githubPostV2 u pr ∈ (runV2 cfg w).2) :
    pr.base = (goSplit '/' (goTrimSpace out)).getLastD [] := by
  obtain ⟨src, base, summary, owner, repo, _, hde, _, _, _, _, hpr, _⟩ := runV2_post_char hmem
  have hdb := hde hb
  rw [hout, show getDefaultBranch (Except.ok out) = getDefaultBranchParse out from rfl,
    getDefaultBranchParse_ok] at hdb
  injection hdb with hbase
  rw [hpr]
  simp only [buildPRV2]
  exact hbase.symm

/-- Witness for `empty_base_uses_default_branch` on a concrete run
whose remote HEAD points at `develop`. -/
theorem empty_base_uses_default_branch_witness :
    (⟨str "[PROJ-7] T", str "https://j/browse/PROJ-7", str "feature", str "develop",
        true⟩ : PullRequestV2).base
      = (goSplit '/' (goTrimSpace (str "refs/remotes/origin/develop\n"))).getLastD [] :=
  empty_base_uses_default_branch
    ⟨str "https://j", str "e", str "t", str "g", str "PROJ-7", []⟩
    ⟨Except.ok (str "feature\n"), Except.ok (str "refs/remotes/origin/develop\n"),
      Except.ok (str "git@github.com:o/r.git\n"), 200, Except.ok (str "T"),
      201, str "respbody", str "u"⟩
    (str "refs/remotes/origin/develop\n")
    (str "https://api.github.com/repos/o/r/pulls")
    ⟨str "[PROJ-7] T", str "https://j/browse/PROJ-7", str "feature", str "develop", true⟩
    rfl rfl (by decide)

/-- C6 counterexample: a 201 response in the older entry point exits
zero but prints no PR URL (nothing is decoded from the response body),
against the claim's "printing the created PR's URL". -/
theorem legacy_success_prints_no_url :
    (runV1 ⟨str "https://jira.example.com", str "me@example.com", str "tok", str "ghtok",
        str "PROJ-42", str "main"⟩
      ⟨Except.ok (str "feature\n"), Except.ok (str "refs/remotes/origin/main\n"),
        Except.ok (str "https://github.com/o/r.git\n"), 200,
        Except.ok (str "Fix login bug"), 201, str "respbody",
        str "https://api.github.com/repos/o/r/pulls/1"⟩).1
      = Outcome.ok none := by decide

/-- C6 (amended): in the draft entry point, 201 is the only status on
which a run exits zero, and then the printed URL is the one decoded
from the response body; any other status after a POST is fatal with
that status and the verbatim response body.  (The older entry point
also succeeds only on 201 and fails identically otherwise, but prints
no URL — see `legacy_success_prints_no_url`.) -/
theorem github_status_201_contract (cfg : Config) (w : World) :
    (∀ u, (runV2 cfg w).1 = Outcome.ok u → w.githubStatus = 201 ∧ u = some w.githubURL) ∧
    (∀ u pr, Event.githubPostV2 u pr ∈ (runV2 cfg w).2 → w.githubStatus ≠ 201 →
      (runV2 cfg w).1 = Outcome.fatal (prFailMsg w.githubStatus w.githubBody)) := by
  constructor
  · intro u h
    exact runV2_ok_char h
  · intro u pr hmem hs
    obtain ⟨src, base, summary, owner, repo, _, _, _, _, _, _, _, hout⟩ := runV2_post_char hmem
    rw [hout]
    exact submitStageV2_fail hs

/-- Witness for `github_status_201_contract` on a concrete 422
response. -/
theorem github_status_201_contract_witness :
    (runV2 ⟨str "https://j", str "e", str "t", str "g", str "PROJ-9", str "main"⟩
      ⟨Except.ok (str "feature\n"), Except.ok (str "refs/remotes/origin/main\n"),
        Except.ok (str "https://github.com/o/r.git\n"), 200, Except.ok (str "T"),
        422, str "Validation Failed", str ""⟩).1
      = Outcome.fatal (prFailMsg 422 (str "Validation Failed")) :=
  (github_status_201_contract
    ⟨str "https://j", str "e", str "t", str "g", str "PROJ-9", str "main"⟩
    ⟨Except.ok (str "feature\n"), Except.ok (str "refs/remotes/origin/main\n"),
      Except.ok (str "https://github.com/o/r.git\n"), 200, Except.ok (str "T"),
      422, str "Validation Failed", str ""⟩).2
    (str "https://api.github.com/repos/o/r/pulls")
    ⟨str "[PROJ-9] T", str "https://j/browse/PROJ-9", str "feature", str "main", true⟩
    (by decide) (by decide)

/-- C7: on any non-200 JIRA status, no GitHub POST ever happens, and if
the run got as far as the JIRA GET it terminates with the fetch-failure
message carrying that status. -/
theorem jira_non_200_no_github_post (cfg : Config) (w : World) (hs : w.jiraStatus ≠ 200) :
    (∀ u pr, Event.githubPostV2 u pr ∉ (runV2 cfg w).2) ∧
    (∀ u, Event.jiraGet u ∈ (runV2 cfg w).2 →
      (runV2 cfg w).1 = Outcome.fatal (str "Error fetching JIRA issue: "
        ++ (str "Failed to fetch JIRA issue. Status: " ++ natToStr w.jiraStatus))) := by
  constructor
  · intro u pr hmem
    obtain ⟨_, _, summary, _, _, _, _, _, _, hj, _⟩ := runV2_post_char hmem
    unfold getJiraIssueTitle at hj
    rw [if_pos hs] at hj
    cases hj
  · intro u hmem
    obtain ⟨src, base, owner, repo, hout⟩ := runV2_jiraGet_char hmem
    rw [hout]
    exact jiraStageV2_fail hs

/-- Witness for `jira_non_200_no_github_post` on a concrete 404
response. -/
theorem jira_non_200_no_github_post_witness :
    (runV2 ⟨str "https://j", str "e", str "t", str "g", str "PROJ-9", str "main"⟩
      ⟨Except.ok (str "feature\n"), Except.ok (str "refs/remotes/origin/main\n"),
        Except.ok (str "https://github.com/o/r.git\n"), 404, Except.ok (str "T"),
        201, str "respbody", str "u"⟩).1
      = Outcome.fatal (str "Error fetching JIRA issue: "
          ++ (str "Failed to fetch JIRA issue. Status: " ++ natToStr 404)) :=
  (jira_non_200_no_github_post
    ⟨str "https://j", str "e", str "t", str "g", str "PROJ-9", str "main"⟩
    ⟨Except.ok (str "feature\n"), Except.ok (str "refs/remotes/origin/main\n"),
      Except.ok (str "https://github.com/o/r.git\n"), 404, Except.ok (str "T"),
      201, str "respbody", str "u"⟩
    (by decide)).2
    (str "https://j/rest/api/3/issue/PROJ-9")
    (by decide)

/-- C8: with a non-empty `-base` flag the symbolic-ref subprocess is
never spawned and every POSTed payload carries the flag value verbatim
as its base branch. -/
theorem base_flag_skips_discovery (cfg : Config) (w : World) (hb : cfg.baseFlag ≠ []) :
    Event.gitSymbolicRef ∉ (runV2 cfg w).2 ∧
    (∀ u pr, Event.githubPostV2 u pr ∈ (runV2 cfg w).2 → pr.base = cfg.baseFlag) := by
  constructor
  · by_cases hmiss : cfg.jiraBaseURL = [] ∨ cfg.jiraEmail = [] ∨ cfg.jiraAPIToken = [] ∨
        cfg.githubToken = []
    · unfold runV2
      rw [if_pos hmiss]
      simp
    · by_cases hissue : cfg.issueFlag = []
      · unfold runV2
        rw [if_neg hmiss, if_pos hissue]
        simp
      · rw [runV2_eq_go hmiss hissue]
        exact branchStageV2_no_symref hb
  · intro u pr hmem
    obtain ⟨src, base, summary, owner, repo, _, _, hdn, _, _, _, hpr, _⟩ :=
      runV2_post_char hmem
    rw [hpr]
    simp only [buildPRV2]
    exact hdn hb

/-- Witness for `base_flag_skips_discovery` on a concrete run with
`-base develop`. -/
theorem base_flag_skips_discovery_witness :
    Event.gitSymbolicRef ∉
      (runV2 ⟨str "https://j", str "e", str "t", str "g", str "PROJ-9", str "develop"⟩
        ⟨Except.ok (str "feature\n"), Except.ok (str "refs/remotes/origin/main\n"),
          Except.ok (str "https://github.com/o/r.git\n"), 200, Except.ok (str "T"),
          201, str "respbody", str "u"⟩).2 :=
  (base_flag_skips_discovery
    ⟨str "https://j", str "e", str "t", str "g", str "PROJ-9", str "develop"⟩
    ⟨Except.ok (str "feature\n"), Except.ok (str "refs/remotes/origin/main\n"),
      Except.ok (str "https://github.com/o/r.git\n"), 200, Except.ok (str "T"),
      201, str "respbody", str "u"⟩
    (by decide)).1

/-- C9 counterexample: a run missing only `JIRA_EMAIL` and a run
missing only `GITHUB_TOKEN` abort with the identical constant message,
so the `ConfigError` cannot be listing which required value is
missing. -/
theorem config_error_message_constant :
    (runV2 ⟨str "https://j", [], str "t", str "g", str "PROJ-1", str "main"⟩
      ⟨Except.ok (str "a\n"), Except.ok (str "b\n"), Except.ok (str "c\n"), 200,
        Except.ok (str "T"), 201, str "respbody", str "u"⟩).1
      = Outcome.fatal envErrMsg ∧
    (runV2 ⟨str "https://j", str "e", str "t", [], str "PROJ-1", str "main"⟩
      ⟨Except.ok (str "a\n"), Except.ok (str "b\n"), Except.ok (str "c\n"), 200,
        Except.ok (str "T"), 201, str "respbody", str "u"⟩).1
      = Outcome.fatal envErrMsg :=
  ⟨by decide, by decide⟩

/-- C9 (amended): a missing environment variable aborts both entry
points before any git subprocess or HTTP request with the constant
`ConfigError` naming the full set of four required variables (not the
specific missing one); with the environment complete, a missing issue
key aborts the same way with the message naming the `-issue` flag. -/
theorem missing_config_aborts_early (cfg : Config) (w : World) :
    ((cfg.jiraBaseURL = [] ∨ cfg.jiraEmail = [] ∨ cfg.jiraAPIToken = [] ∨
        cfg.githubToken = []) →
      runV2 cfg w = (Outcome.fatal envErrMsg, []) ∧
      runV1 cfg w = (Outcome.fatal envErrMsg, [])) ∧
    (¬(cfg.jiraBaseURL = [] ∨ cfg.jiraEmail = [] ∨ cfg.jiraAPIToken = [] ∨
        cfg.githubToken = []) → cfg.issueFlag = [] →
      runV2 cfg w = (Outcome.fatal issueErrMsg, []) ∧
      runV1 cfg w = (Outcome.fatal issueErrMsg, [])) := by
  constructor
  · intro h
    constructor
    · unfold runV2
      rw [if_pos h]
    · unfold runV1
      rw [if_pos h]
  · intro hm hi
    constructor
    · unfold runV2
      rw [if_neg hm, if_pos hi]
    · unfold runV1
      rw [if_neg hm, if_pos hi]

/-- Witness for `missing_config_aborts_early` with `GITHUB_TOKEN`
unset. -/
theorem missing_config_aborts_early_witness :
    runV2 ⟨str "https://j", str "e", str "t", [], str "PROJ-2", str "main"⟩
      ⟨Except.ok (str "a\n"), Except.ok (str "b\n"), Except.ok (str "c\n"), 200,
        Except.ok (str "T"), 201, str "respbody", str "u"⟩
      = (Outcome.fatal envErrMsg, []) :=
  ((missing_config_aborts_early
    ⟨str "https://j", str "e", str "t", [], str "PROJ-2", str "main"⟩
    ⟨Except.ok (str "a\n"), Except.ok (str "b\n"), Except.ok (str "c\n"), 200,
      Except.ok (str "T"), 201, str "respbody", str "u"⟩).1 (by decide)).1
